import Mathlib

/-!
Shallow embedding of the session/token lifecycle manager and API proxy of the
spotify-sorter Cloudflare Worker (src/index.js), together with theorems
settling the specification claims about it.

Modelling conventions:
* JS string-or-undefined values are `Option String`; JS truthiness on them is
  the `truthy` predicate (both `undefined` and the empty string are falsy).
* Timestamps (`Date.now()`, `expires_at`) are `Int` epoch milliseconds.
  The worker reads the clock twice on a refreshing request (once in
  `handleAPI` for the expiry check, once in `refreshAccessToken` when
  computing the new expiry), so the model carries two clock values.
* The KV store, the token endpoint, the upstream Spotify API and the three
  internal sub-handlers are external collaborators; the handler's interaction
  with them is recorded as an explicit effect trace (`List Effect`), and
  their responses are supplied by oracle fields of `ApiWorld`.
* `JSON.parse`/`JSON.stringify` round-tripping of credential records through
  the KV store is elided: the store maps keys directly to `TokenRecord`s.
-/

namespace SpotifySorter

/-- Upstream API base URL, src/index.js line 20. -/
def SPOTIFY_API_BASE : String := "https://api.spotify.com/v1"

/-- OAuth token endpoint URL, src/index.js line 19. -/
def SPOTIFY_TOKEN_URL : String := "https://accounts.spotify.com/api/token"

/-- JS truthiness of a string-or-undefined value: `undefined` and the empty
string are falsy, every other string is truthy. -/
def truthy : Option String → Bool
  | none => false
  | some s => !(s == "")

/-- JS `a || b` on string-or-undefined values. -/
def jsOr (a b : Option String) : Option String :=
  if truthy a then a else b

/-- Credential record persisted in the SPOTIFY_TOKENS KV store
(src/index.js lines 123-127 and 213-217). `refresh_token` is optional
because the code stores whatever the token endpoint returned, with no
presence check. -/
structure TokenRecord where
  access_token : String
  refresh_token : Option String
  expires_at : Int
  deriving DecidableEq

/-- Response of the OAuth token endpoint for both the authorization-code
exchange and the refresh grant: `ok` is the HTTP-success flag
(`response.ok`), the remaining fields are the parsed JSON body
`access_token, refresh_token?, expires_in`. A network failure caught by
the `try/catch` in `refreshAccessToken` is modelled as `ok = false`. -/
structure TokenEndpointResponse where
  ok : Bool
  access_token : String
  refresh_token : Option String
  expires_in : Int
  deriving DecidableEq

/-- `refreshAccessToken(refreshToken, env)`, src/index.js lines 196-222.
Returns `none` on a non-success response (the JS returns `null`), otherwise
the new record with `refresh_token := data.refresh_token || refreshToken`
and `expires_at := Date.now() + data.expires_in * 1000`; `now` is that
`Date.now()` reading. -/
def refreshAccessToken (refreshToken : Option String)
    (resp : TokenEndpointResponse) (now : Int) : Option TokenRecord :=
  if resp.ok then
    some { access_token := resp.access_token
           refresh_token := jsOr resp.refresh_token refreshToken
           expires_at := now + resp.expires_in * 1000 }
  else
    none

/-- Lower-case hex digit, for JSON escaping of control characters. -/
def hexDigit (n : Nat) : Char :=
  if n < 10 then Char.ofNat (48 + n) else Char.ofNat (87 + n)

/-- JSON string escaping of one character, as `JSON.stringify` performs it. -/
def jsonEscapeChar (c : Char) : String :=
  if c = '"' then "\\\""
  else if c = '\\' then "\\\\"
  else if c = '\x08' then "\\b"
  else if c = '\x0c' then "\\f"
  else if c = '\n' then "\\n"
  else if c = '\r' then "\\r"
  else if c = '\t' then "\\t"
  else if c.toNat < 32 then
    "\\u00" ++ String.mk [hexDigit (c.toNat / 16), hexDigit (c.toNat % 16)]
  else
    String.singleton c

/-- `JSON.stringify` of a string value. -/
def jsonQuote (s : String) : String :=
  "\"" ++ String.join (s.toList.map jsonEscapeChar) ++ "\""

/-- `JSON.stringify` of an object with one field, as produced for the error
payloads of this worker: braces are written with hex escapes. -/
def jsonObjError (msg : String) : String :=
  "\x7b\"error\":" ++ jsonQuote msg ++ "\x7d"

/-- An HTTP response as the worker constructs it: status, body text, and
the Content-Type header value. -/
structure HttpResponse where
  status : Nat
  body : String
  contentType : String
  deriving DecidableEq

/-- `jsonResponse(data, status)`, src/index.js lines 405-410, specialised to
the single-field error objects the API handler returns. -/
def jsonError (msg : String) (status : Nat) : HttpResponse :=
  { status := status, body := jsonObjError msg, contentType := "application/json" }

/-- Substring test on strings (used to state properties about response
bodies, e.g. presence of an `error` field or of a secret). -/
def listHasInfix (pat : List Char) : List Char → Bool
  | [] => pat.isEmpty
  | c :: cs => pat.isPrefixOf (c :: cs) || listHasInfix pat cs

/-- `containsSubstr s pat` holds when `pat` occurs in `s`. -/
def containsSubstr (s pat : String) : Bool :=
  listHasInfix pat.toList s.toList

/-- The literal pattern of the session-cookie regex
`/bosworth_session=([^;]+)/`, src/index.js line 395. -/
def sessionPat : List Char := "bosworth_session=".toList

/-- Leftmost match of the regex `bosworth_session=([^;]+)` against the
cookie header, returning the first capture group: at each start position,
the literal must match and at least one non-semicolon character must follow;
the capture is the greedy run of non-semicolon characters. A position where
the literal matches but is followed immediately by a semicolon (or the end)
is not a match, and scanning continues at the next position, exactly as the
regex engine does. -/
def scanSession : List Char → Option String
  | [] => none
  | c :: cs =>
    if sessionPat.isPrefixOf (c :: cs) then
      let tok := ((c :: cs).drop sessionPat.length).takeWhile (fun ch => !(ch == ';'))
      if tok.isEmpty then scanSession cs else some (String.mk tok)
    else
      scanSession cs

/-- `headers.get(name)` on a header list (exact-name lookup; the worker only
ever asks for the literal name `Cookie`). -/
def headerGet (hs : List (String × String)) (name : String) : Option String :=
  (hs.find? (fun p => p.1 == name)).map (fun p => p.2)

/-- The parts of an inbound /api request that the handler inspects:
headers, `request.method`, `url.pathname`, `url.search` (empty or starting
with a question mark), and the body text. -/
structure ApiInput where
  headers : List (String × String)
  method : String
  path : String
  search : String
  body : String
  deriving DecidableEq

/-- `getSessionFromCookie(request)`, src/index.js lines 391-397: read the
Cookie header; with no header return null, otherwise return the first
capture of the `bosworth_session=([^;]+)` regex, or null when it does not
match. -/
def getSessionFromCookie (inp : ApiInput) : Option String :=
  match headerGet inp.headers "Cookie" with
  | none => none
  | some h => scanSession h.toList

/-- The outbound request `proxyToSpotify` builds for the upstream API:
URL, method, the exact header list, and an optional body. -/
structure OutboundRequest where
  url : String
  method : String
  headers : List (String × String)
  body : Option String
  deriving DecidableEq

/-- Status and body text of an upstream response. -/
structure UpstreamResponse where
  status : Nat
  body : String
  deriving DecidableEq

/-- `s.replace(pat, '')` for a plain (non-regex) JS pattern: remove the
first occurrence of `pat`, leaving the string unchanged when `pat` does
not occur. -/
def stripFirst (pat : List Char) : List Char → List Char
  | [] => []
  | c :: cs =>
    if pat.isPrefixOf (c :: cs) then (c :: cs).drop pat.length
    else c :: stripFirst pat cs

/-- The pattern of `path.replace('/api', '')`, src/index.js line 192. -/
def apiPat : List Char := "/api".toList

/-- `path.replace('/api', '')`. -/
def replaceApi (path : String) : String :=
  String.mk (stripFirst apiPat path.toList)

/-- The outbound request constructed by `proxyToSpotify`, src/index.js
lines 224-244: URL is the fixed base plus path plus the original query
string; the method is copied; the headers are exactly an Authorization
bearer header and a JSON content type (no inbound header is consulted);
the body is forwarded only for POST, PUT, DELETE and only when non-empty. -/
def proxyOutbound (inp : ApiInput) (accessToken : String) (path : String) :
    OutboundRequest :=
  { url := SPOTIFY_API_BASE ++ path ++ inp.search
    method := inp.method
    headers := [("Authorization", "Bearer " ++ accessToken),
                ("Content-Type", "application/json")]
    body := if ["POST", "PUT", "DELETE"].contains inp.method then
              (if inp.body == "" then none else some inp.body)
            else none }

/-- `proxyToSpotify(request, accessToken, path)`, src/index.js lines
224-253: performs the outbound request and returns the upstream status with
the raw upstream body, labeled application/json. The outbound request is
returned alongside so that theorems can speak about what was sent. -/
def proxyToSpotify (inp : ApiInput) (upstream : OutboundRequest → UpstreamResponse)
    (accessToken : String) (path : String) : HttpResponse × OutboundRequest :=
  let req := proxyOutbound inp accessToken path
  let resp := upstream req
  ({ status := resp.status, body := resp.body, contentType := "application/json" }, req)

/-- One observable interaction of `handleAPI` with its collaborators, in
program order: a KV read, a KV write (with its `expirationTtl` in seconds),
a refresh POST to the token endpoint, the proxied upstream request, or a
dispatch to one of the three internal sub-handlers. -/
inductive Effect where
  | kvGet (key : String)
  | kvPut (key : String) (record : TokenRecord) (expirationTtl : Nat)
  | refreshCall (refreshToken : Option String)
  | upstreamCall (req : OutboundRequest)
  | internalCall (path : String) (accessToken : String)
  deriving DecidableEq

/-- Whether an effect is a write to the token store. -/
def Effect.isWrite : Effect → Bool
  | Effect.kvPut _ _ _ => true
  | _ => false

/-- The collaborators of one `handleAPI` run: the KV store contents, the
clock reading at the expiry check (line 169), the token endpoint's answer
to a refresh POST together with the clock reading inside
`refreshAccessToken` (line 216), the upstream API, and the responses of
the out-of-scope internal sub-handlers. -/
structure ApiWorld where
  store : String → Option TokenRecord
  now1 : Int
  refreshResp : TokenEndpointResponse
  now2 : Int
  upstream : OutboundRequest → UpstreamResponse
  internalResp : String → HttpResponse

/-- The three internally handled /api paths, src/index.js lines 179-189. -/
def internalPaths : List String :=
  ["/api/ai-insights", "/api/session/save", "/api/session/history"]

/-- The tail of `handleAPI` after token resolution, src/index.js lines
178-193: dispatch to an internal sub-handler when the path is one of the
three internal endpoints, otherwise strip the `/api` prefix and proxy to
Spotify. -/
def dispatchAPI (inp : ApiInput) (w : ApiWorld) (accessToken : String) :
    HttpResponse × List Effect :=
  if internalPaths.contains inp.path then
    (w.internalResp inp.path, [Effect.internalCall inp.path accessToken])
  else
    let r := proxyToSpotify inp w.upstream accessToken (replaceApi inp.path)
    (r.1, [Effect.upstreamCall r.2])

/-- `handleAPI(request, env, path)`, src/index.js lines 153-194: resolve the
session cookie (401 `Not authenticated` when absent), load the record (401
`Session expired` when the store has none), refresh when
`Date.now() >= expires_at - 60000` (persisting the refreshed record under
the same key with `expirationTtl` 86400, or answering 401
`Failed to refresh token` when the refresh returns null), then dispatch. -/
def handleAPI (inp : ApiInput) (w : ApiWorld) : HttpResponse × List Effect :=
  match getSessionFromCookie inp with
  | none => (jsonError "Not authenticated" 401, [])
  | some sessionId =>
    match w.store sessionId with
    | none => (jsonError "Session expired" 401, [Effect.kvGet sessionId])
    | some tokens =>
      if w.now1 ≥ tokens.expires_at - 60000 then
        match refreshAccessToken tokens.refresh_token w.refreshResp w.now2 with
        | some newTokens =>
          let r := dispatchAPI inp w newTokens.access_token
          (r.1, Effect.kvGet sessionId :: Effect.refreshCall tokens.refresh_token ::
                Effect.kvPut sessionId newTokens 86400 :: r.2)
        | none =>
          (jsonError "Failed to refresh token" 401,
           [Effect.kvGet sessionId, Effect.refreshCall tokens.refresh_token])
      else
        let r := dispatchAPI inp w tokens.access_token
        (r.1, Effect.kvGet sessionId :: r.2)

/-- The query parameters of the /callback request that `handleCallback`
reads. -/
structure CallbackInput where
  code : Option String
  error : Option String
  deriving DecidableEq

/-- What `handleCallback` answers the browser: an error page or a redirect
carrying a Set-Cookie header. -/
inductive CallbackOutcome where
  | errorPage (message : String)
  | redirect (location : String) (setCookie : String)
  deriving DecidableEq

/-- `handleCallback(request, env)`, src/index.js lines 86-137: error query
parameter or missing code yield error pages; otherwise the code is
exchanged at the token endpoint (`exch` is its response, `now` the
`Date.now()` reading of line 126, `sessionId` the fresh
`crypto.randomUUID()`); on exchange success the record is persisted with a
24-hour TTL — with no check that the response carried a refresh token —
and the browser is redirected to /party with the session cookie set. -/
def handleCallback (inp : CallbackInput) (exch : TokenEndpointResponse)
    (now : Int) (sessionId : String) : CallbackOutcome × List Effect :=
  match inp.error with
  | some e => (CallbackOutcome.errorPage ("Authorization denied: " ++ e), [])
  | none =>
    match inp.code with
    | none => (CallbackOutcome.errorPage "No authorization code received", [])
    | some _ =>
      if exch.ok then
        (CallbackOutcome.redirect "/party"
          ("bosworth_session=" ++ sessionId ++
           "; Path=/; HttpOnly; Secure; SameSite=Lax; Max-Age=86400"),
         [Effect.kvPut sessionId
           { access_token := exch.access_token
             refresh_token := exch.refresh_token
             expires_at := now + exch.expires_in * 1000 } 86400])
      else
        (CallbackOutcome.errorPage "Failed to exchange authorization code", [])

/-- The catch clause of the router's `fetch`, src/index.js lines 60-66:
any uncaught exception becomes a 500 response whose JSON body carries the
exception's `message`. -/
def routerCatch (message : String) : HttpResponse :=
  { status := 500, body := jsonObjError message, contentType := "application/json" }

/-- The try/catch skeleton of the exported `fetch` handler, src/index.js
lines 38-68: a completed handler response is returned as-is, a thrown
exception (abstracted by its message) is converted by the catch clause. -/
def workerFetch (handled : Except String HttpResponse) : HttpResponse :=
  match handled with
  | Except.ok r => r
  | Except.error msg => routerCatch msg

/-! Theorems settling the claims. -/

/-- Claim C3: for every successful refresh, the new record's refresh token
equals the refresh-grant response's refresh token when the response carries
one (JS-truthy, i.e. present and non-empty), equals the original input
refresh token when the response omits it, and is never empty or dropped
provided the original input token was an actual (truthy) token. -/
theorem refresh_token_preservation (rt : Option String) (resp : TokenEndpointResponse)
    (now : Int) (nt : TokenRecord)
    (hres : refreshAccessToken rt resp now = some nt) :
    (truthy resp.refresh_token = true → nt.refresh_token = resp.refresh_token) ∧
    (resp.refresh_token = none → nt.refresh_token = rt) ∧
    (truthy rt = true → truthy nt.refresh_token = true) := by
  unfold refreshAccessToken at hres
  by_cases hok : resp.ok
  · rw [if_pos hok] at hres
    injection hres with h
    subst h
    refine ⟨?_, ?_, ?_⟩
    · intro ht
      simp [jsOr, ht]
    · intro hn
      simp [jsOr, hn, truthy]
    · intro hrt
      by_cases hrr : truthy resp.refresh_token = true
      · simp [jsOr, hrr]
      · simp only [Bool.not_eq_true] at hrr
        simp [jsOr, hrr, hrt]
  · rw [if_neg hok] at hres
    cases hres

/-- Token endpoint response used to instantiate the refresh-token
preservation theorem: a successful refresh that omits `refresh_token`. -/
def respW3 : TokenEndpointResponse :=
  { ok := true, access_token := "newA", refresh_token := none, expires_in := 3600 }

/-- Record produced by refreshing with `respW3` at clock 0 and original
refresh token `oldR`. -/
def recW3 : TokenRecord :=
  { access_token := "newA", refresh_token := some "oldR", expires_at := 3600000 }

/-- Concrete instance of `refresh_token_preservation`: a refresh response
without a refresh token preserves the original one. -/
theorem refresh_token_preservation_witness :
    refreshAccessToken (some "oldR") respW3 0 = some recW3 ∧
    ((truthy respW3.refresh_token = true → recW3.refresh_token = respW3.refresh_token) ∧
     (respW3.refresh_token = none → recW3.refresh_token = some "oldR") ∧
     (truthy (some "oldR") = true → truthy recW3.refresh_token = true)) :=
  ⟨by decide, refresh_token_preservation (some "oldR") respW3 0 recW3 (by decide)⟩

/-- Claim C4: for every proxied request and every upstream behavior
(including non-2xx statuses such as 429), the response handed back to the
client has exactly the upstream status, exactly the raw upstream body, and
is labeled application/json — never rewritten, wrapped or suppressed. -/
theorem proxy_transparency (inp : ApiInput)
    (upstream : OutboundRequest → UpstreamResponse) (accessToken path : String) :
    (proxyToSpotify inp upstream accessToken path).1.status =
      (upstream (proxyOutbound inp accessToken path)).status ∧
    (proxyToSpotify inp upstream accessToken path).1.body =
      (upstream (proxyOutbound inp accessToken path)).body ∧
    (proxyToSpotify inp upstream accessToken path).1.contentType = "application/json" :=
  ⟨rfl, rfl, rfl⟩

/-- Claim C5: whatever the inbound request carries, the outbound request to
the upstream API has exactly the Authorization bearer header and the JSON
content-type header — in particular it never contains a Cookie header. -/
theorem no_cookie_forwarding (inp : ApiInput) (accessToken path : String) :
    (proxyOutbound inp accessToken path).headers =
      [("Authorization", "Bearer " ++ accessToken),
       ("Content-Type", "application/json")] ∧
    headerGet (proxyOutbound inp accessToken path).headers "Cookie" = none :=
  ⟨rfl, rfl⟩

/-- Record stored before the refresh used to refute expiry monotonicity:
its expiry sits exactly at the 60-second refresh margin. -/
def recC7 : TokenRecord :=
  { access_token := "a7", refresh_token := some "r7", expires_at := 60000 }

/-- Inbound request for the expiry-monotonicity counterexample. -/
def inpC7 : ApiInput :=
  { headers := [("Cookie", "bosworth_session=s7")], method := "GET",
    path := "/api/me", search := "", body := "" }

/-- World for the expiry-monotonicity counterexample: the clock reads 0,
the stored record expires at 60000 (so the refresh fires), and the token
endpoint answers with a 60-second lifetime. -/
def wC7 : ApiWorld :=
  { store := fun k => if k == "s7" then some recC7 else none
    now1 := 0
    refreshResp := { ok := true, access_token := "a7n", refresh_token := some "r7n",
                     expires_in := 60 }
    now2 := 0
    upstream := fun _ => { status := 200, body := "ok" }
    internalResp := fun _ => jsonError "internal" 200 }

/-- Claim C7 counterexample: a refresh performed on a stored record whose
expiry sits at the margin, answered with a 60-second lifetime, persists a
record whose `expires_at` equals — does not exceed — the old one. -/
theorem expiry_monotonicity_counterexample :
    (handleAPI inpC7 wC7).2 =
      [Effect.kvGet "s7", Effect.refreshCall (some "r7"),
       Effect.kvPut "s7"
         { access_token := "a7n", refresh_token := some "r7n", expires_at := 60000 } 86400,
       Effect.upstreamCall (proxyOutbound inpC7 "a7n" "/me")] ∧
    ¬ ((60000 : Int) > recC7.expires_at) := by
  constructor
  · decide
  · decide

/-- Claim C7 as amended: the refreshed record's `expires_at` strictly
exceeds the old one whenever the refresh response's lifetime exceeds the
60-second refresh margin (`expires_in * 1000 > 60000`) and the clock does
not run backwards between the expiry check and the refresh. -/
theorem expiry_monotonicity_amended (old : TokenRecord) (resp : TokenEndpointResponse)
    (now1 now2 : Int) (nt : TokenRecord)
    (htrig : now1 ≥ old.expires_at - 60000)
    (hres : refreshAccessToken old.refresh_token resp now2 = some nt)
    (hlife : resp.expires_in * 1000 > 60000)
    (hclock : now2 ≥ now1) :
    nt.expires_at > old.expires_at := by
  unfold refreshAccessToken at hres
  by_cases hok : resp.ok
  · rw [if_pos hok] at hres
    injection hres with h
    subst h
    show now2 + resp.expires_in * 1000 > old.expires_at
    linarith
  · rw [if_neg hok] at hres
    cases hres

/-- Concrete instance of `expiry_monotonicity_amended`: with a 3600-second
lifetime the refreshed expiry strictly grows. -/
theorem expiry_monotonicity_amended_witness :
    (0 : Int) ≥ recC7.expires_at - 60000 ∧
    refreshAccessToken recC7.refresh_token respW3 0 =
      some { access_token := "newA", refresh_token := some "r7", expires_at := 3600000 } ∧
    respW3.expires_in * 1000 > 60000 ∧
    (0 : Int) ≥ (0 : Int) ∧
    ({ access_token := "newA", refresh_token := some "r7",
       expires_at := 3600000 } : TokenRecord).expires_at > recC7.expires_at :=
  ⟨by decide, by decide, by decide, by decide,
   expiry_monotonicity_amended recC7 respW3 0 0 _ (by decide) (by decide) (by decide)
     (by decide)⟩

/-- Message of the exception used to refute the generic-500-body claim: an
upstream rejection whose text embeds the client secret. -/
def msgC9 : String :=
  "invalid_client: client_secret TOPSECRET123 rejected by accounts.spotify.com"

set_option maxRecDepth 4096 in
/-- Claim C9 counterexample: the router's catch clause answers 500 but its
body echoes the exception's message — here it contains the secret text, and
the body varies with the exception instead of being a fixed generic one. -/
theorem internal_error_counterexample :
    (workerFetch (Except.error msgC9)).status = 500 ∧
    containsSubstr (workerFetch (Except.error msgC9)).body "TOPSECRET123" = true ∧
    (workerFetch (Except.error msgC9)).body ≠ (workerFetch (Except.error "boom")).body := by
  refine ⟨rfl, by decide, by decide⟩

/-- Claim C9 as amended: an uncaught exception is converted to HTTP 500
with JSON body carrying the exception's own message in an `error` field —
no stack trace, but not a fixed generic string either, so the body excludes
secrets only insofar as exception messages do. -/
theorem internal_error_shape (msg : String) :
    workerFetch (Except.error msg) =
      { status := 500, body := jsonObjError msg, contentType := "application/json" } :=
  rfl

/-- Claim C6: a request to an /api path whose Cookie header is absent or
carries no `bosworth_session` identifier is answered 401 with a JSON body
carrying an `error` field, and the effect trace is empty — zero token-store
reads or writes and zero upstream calls. -/
theorem missing_session_rejected (inp : ApiInput) (w : ApiWorld)
    (h : getSessionFromCookie inp = none) :
    handleAPI inp w = (jsonError "Not authenticated" 401, []) ∧
    (handleAPI inp w).1.status = 401 ∧
    containsSubstr (handleAPI inp w).1.body "\"error\"" = true := by
  have he : handleAPI inp w = (jsonError "Not authenticated" 401, []) := by
    simp only [handleAPI, h]
  refine ⟨he, ?_, ?_⟩
  · rw [he]
    decide
  · rw [he]
    decide

/-- Inbound request without any Cookie header, for the missing-session
instance. -/
def inpC6 : ApiInput :=
  { headers := [("Accept", "application/json")], method := "GET",
    path := "/api/me", search := "", body := "" }

/-- World for the missing-session instance; its collaborators are never
consulted. -/
def wC6 : ApiWorld :=
  { store := fun _ => none
    now1 := 0
    refreshResp := { ok := false, access_token := "", refresh_token := none,
                     expires_in := 0 }
    now2 := 0
    upstream := fun _ => { status := 200, body := "ok" }
    internalResp := fun _ => jsonError "internal" 200 }

/-- Concrete instance of `missing_session_rejected`: a cookieless /api/me
request is answered 401 with an error body and an empty effect trace. -/
theorem missing_session_rejected_witness :
    getSessionFromCookie inpC6 = none ∧
    (handleAPI inpC6 wC6 = (jsonError "Not authenticated" 401, []) ∧
     (handleAPI inpC6 wC6).1.status = 401 ∧
     containsSubstr (handleAPI inpC6 wC6).1.body "\"error\"" = true) :=
  ⟨by decide, missing_session_rejected inpC6 wC6 (by decide)⟩

/-- Claim C10: with a valid session whose record is still fresh
(`now < expires_at - 60000`), the handler only reads: its trace is the KV
read followed by the dispatch effect, and contains no write to the token
store, so the stored record, its key and its remaining TTL are untouched. -/
theorem fresh_token_no_store_write (inp : ApiInput) (w : ApiWorld) (sid : String)
    (rec : TokenRecord)
    (hs : getSessionFromCookie inp = some sid)
    (hst : w.store sid = some rec)
    (hfresh : ¬ (w.now1 ≥ rec.expires_at - 60000)) :
    handleAPI inp w = ((dispatchAPI inp w rec.access_token).1,
      Effect.kvGet sid :: (dispatchAPI inp w rec.access_token).2) ∧
    (handleAPI inp w).2.all (fun e => !(Effect.isWrite e)) = true := by
  have he : handleAPI inp w = ((dispatchAPI inp w rec.access_token).1,
      Effect.kvGet sid :: (dispatchAPI inp w rec.access_token).2) := by
    simp only [handleAPI, hs, hst]
    rw [if_neg hfresh]
  refine ⟨he, ?_⟩
  rw [he]
  unfold dispatchAPI
  by_cases hp : internalPaths.contains inp.path
  · rw [if_pos hp]
    simp [Effect.isWrite]
  · rw [if_neg hp]
    simp [Effect.isWrite]

/-- Fresh-session inbound request for the no-store-write instance. -/
def inpC10 : ApiInput :=
  { headers := [("Cookie", "bosworth_session=s10")], method := "GET",
    path := "/api/me/tracks", search := "?limit=50", body := "" }

/-- Stored record for the no-store-write instance, far from expiry. -/
def recC10 : TokenRecord :=
  { access_token := "a10", refresh_token := some "r10", expires_at := 10000000 }

/-- World for the no-store-write instance: the clock is well before the
refresh margin. -/
def wC10 : ApiWorld :=
  { store := fun k => if k == "s10" then some recC10 else none
    now1 := 0
    refreshResp := { ok := true, access_token := "never", refresh_token := none,
                     expires_in := 3600 }
    now2 := 0
    upstream := fun _ => { status := 200, body := "\x7b\"items\":[]\x7d" }
    internalResp := fun _ => jsonError "internal" 200 }

/-- Concrete instance of `fresh_token_no_store_write`. -/
theorem fresh_token_no_store_write_witness :
    getSessionFromCookie inpC10 = some "s10" ∧
    wC10.store "s10" = some recC10 ∧
    ¬ (wC10.now1 ≥ recC10.expires_at - 60000) ∧
    (handleAPI inpC10 wC10 = ((dispatchAPI inpC10 wC10 recC10.access_token).1,
       Effect.kvGet "s10" :: (dispatchAPI inpC10 wC10 recC10.access_token).2) ∧
     (handleAPI inpC10 wC10).2.all (fun e => !(Effect.isWrite e)) = true) :=
  ⟨by decide, by decide, by decide,
   fresh_token_no_store_write inpC10 wC10 "s10" recC10 (by decide) (by decide)
     (by decide)⟩

/-- Claim C2: on an /api request bound for the proxy whose session resolves
to a record inside the 60-second margin, the handler performs exactly one
refresh call, before any upstream call; on success it persists the new
record under the same key with TTL 86400 and the upstream request carries
the new access token; on failure it answers 401 and never reaches
upstream. -/
theorem near_expiry_refresh (inp : ApiInput) (w : ApiWorld) (sid : String)
    (rec : TokenRecord)
    (hs : getSessionFromCookie inp = some sid)
    (hst : w.store sid = some rec)
    (hexp : w.now1 ≥ rec.expires_at - 60000)
    (hpath : internalPaths.contains inp.path = false) :
    (∀ nt, refreshAccessToken rec.refresh_token w.refreshResp w.now2 = some nt →
      handleAPI inp w =
        ((proxyToSpotify inp w.upstream nt.access_token (replaceApi inp.path)).1,
         [Effect.kvGet sid, Effect.refreshCall rec.refresh_token,
          Effect.kvPut sid nt 86400,
          Effect.upstreamCall (proxyOutbound inp nt.access_token (replaceApi inp.path))]) ∧
      (proxyOutbound inp nt.access_token (replaceApi inp.path)).headers =
        [("Authorization", "Bearer " ++ nt.access_token),
         ("Content-Type", "application/json")]) ∧
    (refreshAccessToken rec.refresh_token w.refreshResp w.now2 = none →
      handleAPI inp w =
        (jsonError "Failed to refresh token" 401,
         [Effect.kvGet sid, Effect.refreshCall rec.refresh_token])) := by
  constructor
  · intro nt hnt
    constructor
    · simp only [handleAPI, hs, hst]
      rw [if_pos hexp]
      simp only [hnt, dispatchAPI, hpath, Bool.false_eq_true, if_false, proxyToSpotify]
    · rfl
  · intro hnone
    simp only [handleAPI, hs, hst]
    rw [if_pos hexp]
    simp only [hnone]

/-- Near-expiry inbound request for the refresh instance. -/
def inpC2 : ApiInput :=
  { headers := [("Cookie", "bosworth_session=s2")], method := "GET",
    path := "/api/me", search := "", body := "" }

/-- Stored record for the refresh instance, 30 seconds from expiry. -/
def recC2 : TokenRecord :=
  { access_token := "oldA", refresh_token := some "oldR", expires_at := 30000 }

/-- World for the refresh instance: the token endpoint grants a fresh hour. -/
def wC2 : ApiWorld :=
  { store := fun k => if k == "s2" then some recC2 else none
    now1 := 0
    refreshResp := { ok := true, access_token := "newA", refresh_token := some "newR",
                     expires_in := 3600 }
    now2 := 0
    upstream := fun _ => { status := 200, body := "\x7b\"id\":\"me\"\x7d" }
    internalResp := fun _ => jsonError "internal" 200 }

/-- The record the refresh instance persists. -/
def ntC2 : TokenRecord :=
  { access_token := "newA", refresh_token := some "newR", expires_at := 3600000 }

/-- Concrete instance of `near_expiry_refresh`: the successful branch. -/
theorem near_expiry_refresh_witness :
    getSessionFromCookie inpC2 = some "s2" ∧
    wC2.store "s2" = some recC2 ∧
    wC2.now1 ≥ recC2.expires_at - 60000 ∧
    internalPaths.contains inpC2.path = false ∧
    refreshAccessToken recC2.refresh_token wC2.refreshResp wC2.now2 = some ntC2 ∧
    (handleAPI inpC2 wC2 =
       ((proxyToSpotify inpC2 wC2.upstream ntC2.access_token (replaceApi inpC2.path)).1,
        [Effect.kvGet "s2", Effect.refreshCall recC2.refresh_token,
         Effect.kvPut "s2" ntC2 86400,
         Effect.upstreamCall (proxyOutbound inpC2 ntC2.access_token (replaceApi inpC2.path))]) ∧
     (proxyOutbound inpC2 ntC2.access_token (replaceApi inpC2.path)).headers =
       [("Authorization", "Bearer " ++ ntC2.access_token),
        ("Content-Type", "application/json")]) :=
  ⟨by decide, by decide, by decide, by decide, by decide,
   (near_expiry_refresh inpC2 wC2 "s2" recC2 (by decide) (by decide) (by decide)
     (by decide)).1 ntC2 (by decide)⟩

/-- Inbound GET /api/token request with a valid session cookie. -/
def inpC1 : ApiInput :=
  { headers := [("Cookie", "bosworth_session=s1")], method := "GET",
    path := "/api/token", search := "", body := "" }

/-- Stored record for the /api/token instance, far from expiry. -/
def recC1 : TokenRecord :=
  { access_token := "tokA", refresh_token := some "rtA", expires_at := 1000000 }

/-- World for the /api/token instance: the upstream API answers 400 to the
proxied POST-less token request. -/
def wC1 : ApiWorld :=
  { store := fun k => if k == "s1" then some recC1 else none
    now1 := 0
    refreshResp := { ok := false, access_token := "", refresh_token := none,
                     expires_in := 0 }
    now2 := 0
    upstream := fun _ => { status := 400, body := "upstream answer" }
    internalResp := fun _ => jsonError "internal" 200 }

/-- Claim C1 counterexample: a GET /api/token with a valid, fresh session is
not short-circuited — the trace contains an upstream call to the API base at
path /token, and the response body is the upstream's answer, not an
`access_token` object for the stored token. -/
theorem api_token_shortcircuit_counterexample :
    handleAPI inpC1 wC1 =
      ({ status := 400, body := "upstream answer", contentType := "application/json" },
       [Effect.kvGet "s1", Effect.upstreamCall (proxyOutbound inpC1 "tokA" "/token")]) ∧
    (proxyOutbound inpC1 "tokA" "/token").url = SPOTIFY_API_BASE ++ "/token" ∧
    (handleAPI inpC1 wC1).1.body ≠ "\x7b\"access_token\":\"tokA\"\x7d" := by
  refine ⟨by decide, by decide, by decide⟩

/-- Claim C1 as amended: with a valid fresh session, a request to
/api/token performs the usual session resolution and is then proxied
upstream like any other /api path, the outbound URL being the API base
plus /token; no access-token short-circuit exists. -/
theorem api_token_proxied_upstream (inp : ApiInput) (w : ApiWorld) (sid : String)
    (rec : TokenRecord)
    (hpath : inp.path = "/api/token")
    (hs : getSessionFromCookie inp = some sid)
    (hst : w.store sid = some rec)
    (hfresh : ¬ (w.now1 ≥ rec.expires_at - 60000)) :
    handleAPI inp w =
      ((proxyToSpotify inp w.upstream rec.access_token "/token").1,
       [Effect.kvGet sid,
        Effect.upstreamCall (proxyOutbound inp rec.access_token "/token")]) := by
  have hint : internalPaths.contains inp.path = false := by
    rw [hpath]
    decide
  have hrepl : replaceApi inp.path = "/token" := by
    rw [hpath]
    decide
  simp only [handleAPI, hs, hst]
  rw [if_neg hfresh]
  simp only [dispatchAPI, hint, Bool.false_eq_true, if_false, hrepl, proxyToSpotify]

/-- Concrete instance of `api_token_proxied_upstream`. -/
theorem api_token_proxied_upstream_witness :
    inpC1.path = "/api/token" ∧
    getSessionFromCookie inpC1 = some "s1" ∧
    wC1.store "s1" = some recC1 ∧
    ¬ (wC1.now1 ≥ recC1.expires_at - 60000) ∧
    handleAPI inpC1 wC1 =
      ((proxyToSpotify inpC1 wC1.upstream recC1.access_token "/token").1,
       [Effect.kvGet "s1",
        Effect.upstreamCall (proxyOutbound inpC1 recC1.access_token "/token")]) :=
  ⟨by decide, by decide, by decide, by decide,
   api_token_proxied_upstream inpC1 wC1 "s1" recC1 (by decide) (by decide) (by decide)
     (by decide)⟩

/-- Exchange response that omits a refresh token, used to refute the
always-persisted-refresh-token claim. -/
def exchC8 : TokenEndpointResponse :=
  { ok := true, access_token := "tokX", refresh_token := none, expires_in := 3600 }

/-- Claim C8 counterexample: on a successful code exchange whose response
omits `refresh_token`, the callback persists — with a 24-hour TTL — a
record whose refresh token is absent; nothing guards against it. -/
theorem persisted_refresh_token_counterexample :
    (handleCallback { code := some "authcode", error := none } exchC8 0 "sess8").2 =
      [Effect.kvPut "sess8"
        { access_token := "tokX", refresh_token := none, expires_at := 3600000 } 86400] ∧
    truthy ({ access_token := "tokX", refresh_token := none,
              expires_at := 3600000 } : TokenRecord).refresh_token = false := by
  refine ⟨by decide, by decide⟩

/-- Claim C8 as amended: the code-exchange path persists exactly the
response's refresh token, whatever it is (so a response without one yields
a stored record without one), while the refresh path never downgrades — a
truthy input refresh token always yields a truthy stored one. -/
theorem persisted_refresh_token_amended :
    (∀ (inp : CallbackInput) (exch : TokenEndpointResponse) (now : Int) (sid c : String),
      inp.code = some c → inp.error = none → exch.ok = true →
      (handleCallback inp exch now sid).2 =
        [Effect.kvPut sid
          { access_token := exch.access_token
            refresh_token := exch.refresh_token
            expires_at := now + exch.expires_in * 1000 } 86400]) ∧
    (∀ (rt : Option String) (resp : TokenEndpointResponse) (now : Int) (nt : TokenRecord),
      refreshAccessToken rt resp now = some nt → truthy rt = true →
      truthy nt.refresh_token = true) := by
  constructor
  · intro inp exch now sid c hc he hok
    simp only [handleCallback, hc, he]
    rw [if_pos hok]
  · intro rt resp now nt hres hrt
    unfold refreshAccessToken at hres
    by_cases hok : resp.ok
    · rw [if_pos hok] at hres
      injection hres with h
      subst h
      show truthy (jsOr resp.refresh_token rt) = true
      by_cases hrr : truthy resp.refresh_token = true
      · simp [jsOr, hrr]
      · simp only [Bool.not_eq_true] at hrr
        simp [jsOr, hrr, hrt]
    · rw [if_neg hok] at hres
      cases hres

/-- Exchange response carrying a refresh token, for the amended-claim
instance. -/
def exchW8 : TokenEndpointResponse :=
  { ok := true, access_token := "tokW", refresh_token := some "rtW", expires_in := 3600 }

/-- Refresh response for the amended-claim instance, omitting a refresh
token. -/
def respW8 : TokenEndpointResponse :=
  { ok := true, access_token := "aW8", refresh_token := none, expires_in := 3600 }

/-- Record produced by refreshing with `respW8` at clock 0 from `oldR8`. -/
def recW8 : TokenRecord :=
  { access_token := "aW8", refresh_token := some "oldR8", expires_at := 3600000 }

/-- Concrete instance of `persisted_refresh_token_amended`, exercising both
conjuncts. -/
theorem persisted_refresh_token_amended_witness :
    (({ code := some "c8", error := none } : CallbackInput).code = some "c8" ∧
     ({ code := some "c8", error := none } : CallbackInput).error = none ∧
     exchW8.ok = true ∧
     (handleCallback { code := some "c8", error := none } exchW8 0 "sessW").2 =
       [Effect.kvPut "sessW"
         { access_token := exchW8.access_token
           refresh_token := exchW8.refresh_token
           expires_at := (0 : Int) + exchW8.expires_in * 1000 } 86400]) ∧
    (refreshAccessToken (some "oldR8") respW8 0 = some recW8 ∧
     truthy (some "oldR8") = true ∧
     truthy recW8.refresh_token = true) :=
  ⟨⟨rfl, rfl, rfl,
    persisted_refresh_token_amended.1 { code := some "c8", error := none } exchW8 0
      "sessW" "c8" rfl rfl rfl⟩,
   ⟨by decide, by decide,
    persisted_refresh_token_amended.2 (some "oldR8") respW8 0 recW8 (by decide)
      (by decide)⟩⟩

end SpotifySorter
